import Mathlib

/-!
Shallow embedding of the MetroBuilder "Capital City" core: the building
catalog and grid constants (`constants.ts`), the app-level game state and
simulation tick (`App.tsx`), and the canvas-side collision / placement /
sky-fog logic (`GameCanvas.tsx`).  Machine numbers are modelled by exact
rationals; population and job totals are integers (the code floors them).
-/

namespace MetroBuilder

/-! ## Grid constants (constants.ts) -/

def GRID_SIZE : ℚ := 128
def TILE_SIZE : ℚ := 10
def MAP_SIZE : ℚ := GRID_SIZE * TILE_SIZE

/-! ## Data model (types.ts) -/

inductive BuildingCategory where
  | residential
  | commercial
  | industrial
  | office
  | utility
  | decoration
  | road
  | tools
  deriving DecidableEq

structure BuildingType where
  id : String
  name : String
  category : BuildingCategory
  width : ℚ
  depth : ℚ
  height : ℚ
  color : String
  cost : ℚ
  description : String
  deriving DecidableEq

structure PlacedBuilding where
  id : String
  typeId : String
  x : ℚ
  z : ℚ
  rotation : ℚ
  variant : Option ℕ
  deriving DecidableEq

/-! ## Building catalog (constants.ts) -/

def createZone (pfx : String) (nm : String) (category : BuildingCategory)
    (color : String) (baseCost : ℚ) (baseHeight : ℚ) : List BuildingType :=
  [1, 2, 3, 4].map fun (size : ℕ) =>
    { id := pfx ++ "_" ++ toString size ++ "x" ++ toString size
      name := nm ++ " " ++ toString size ++ "x" ++ toString size
      category := category
      width := (size : ℚ)
      depth := (size : ℚ)
      height := baseHeight * (1 + (size : ℚ) * 0.5)
      color := color
      cost := baseCost * (size : ℚ) * (size : ℚ)
      description := toString size ++ "x" ++ toString size ++ " " ++ nm ++ " zone." }

def BUILDINGS : List BuildingType :=
  [ { id := "tool_dezone", name := "De-Zone Tool", category := .tools
      width := 1, depth := 1, height := 0.1, color := "#ff0000", cost := 0
      description := "Removes zoning and buildings." }
  , { id := "road_local", name := "Road", category := .road
      width := 1, depth := 1, height := 0.1, color := "#374151", cost := 10
      description := "Basic infrastructure." } ]
  ++ createZone "res" "Residential" .residential "#4ade80" 50 2
  ++ createZone "com" "Commercial" .commercial "#60a5fa" 100 3
  ++ createZone "ind" "Industrial" .industrial "#facc15" 150 3
  ++ createZone "off" "Office" .office "#c084fc" 200 5
  ++ createZone "util_landfill" "Landfill" .utility "#854d0e" 500 1.5
  ++ createZone "dec_park" "Park" .decoration "#166534" 100 0.5

/-- `BUILDINGS.find(t => t.id === typeId)`, the catalog lookup used by the
collision check, the stats recompute, and the renderer. -/
def findType (typeId : String) : Option BuildingType :=
  BUILDINGS.find? (fun t => t.id == typeId)

/-! ## Collision check (GameCanvas.tsx, `checkCollision`) -/

structure Rect where
  x1 : ℚ
  x2 : ℚ
  z1 : ℚ
  z2 : ℚ

/-- The candidate rectangle: center ± half-extent scaled by tile size. -/
def candidateRect (x z w d : ℚ) : Rect :=
  { x1 := x - w * TILE_SIZE / 2, x2 := x + w * TILE_SIZE / 2
    z1 := z - d * TILE_SIZE / 2, z2 := z + d * TILE_SIZE / 2 }

/-- An existing structure's rectangle, derived from its type's footprint. -/
def buildingRect (b : PlacedBuilding) (t : BuildingType) : Rect :=
  { x1 := b.x - t.width * TILE_SIZE / 2, x2 := b.x + t.width * TILE_SIZE / 2
    z1 := b.z - t.depth * TILE_SIZE / 2, z2 := b.z + t.depth * TILE_SIZE / 2 }

/-- The open-interval overlap test `a1 < b2 && a2 > b1` on both axes. -/
def openOverlap (r1 r2 : Rect) : Prop :=
  r1.x1 < r2.x2 ∧ r1.x2 > r2.x1 ∧ r1.z1 < r2.z2 ∧ r1.z2 > r2.z1

instance (r1 r2 : Rect) : Decidable (openOverlap r1 r2) := by
  unfold openOverlap; infer_instance

/-- The candidate rectangle extends past the grid bounds `±MAP_SIZE/2`. -/
def outsideBounds (x z w d : ℚ) : Prop :=
  x - w * TILE_SIZE / 2 < -(MAP_SIZE / 2) ∨ x + w * TILE_SIZE / 2 > MAP_SIZE / 2 ∨
  z - d * TILE_SIZE / 2 < -(MAP_SIZE / 2) ∨ z + d * TILE_SIZE / 2 > MAP_SIZE / 2

instance (x z w d : ℚ) : Decidable (outsideBounds x z w d) := by
  unfold outsideBounds; infer_instance

/-- `checkCollision(x, z, w, d)` over the current building list: true when
the candidate rectangle leaves the map or overlaps (open intervals) the
rectangle of any placed building whose type resolves in the catalog. -/
def checkCollision (buildings : List PlacedBuilding) (x z w d : ℚ) : Bool :=
  if outsideBounds x z w d then true
  else buildings.any fun b =>
    match findType b.typeId with
    | none => false
    | some bType => decide (openOverlap (buildingRect b bType) (candidateRect x z w d))

/-- The `res_1x1` catalog entry, as produced by `createZone`. -/
def res1x1 : BuildingType :=
  { id := "res_1x1", name := "Residential 1x1", category := .residential
    width := ((1 : ℕ) : ℚ), depth := ((1 : ℕ) : ℚ)
    height := 2 * (1 + ((1 : ℕ) : ℚ) * 0.5), color := "#4ade80"
    cost := 50 * ((1 : ℕ) : ℚ) * ((1 : ℕ) : ℚ)
    description := "1x1 Residential zone." }

/-! ## Stats recompute (App.tsx, the `[buildings]` effect)

The effect walks the building list accumulating `newPop`/`newJobs` as
floating-point sums and floors both once at the end. -/

/-- One step of the `buildings.forEach` accumulation. -/
def statsStep (acc : ℚ × ℚ) (b : PlacedBuilding) : ℚ × ℚ :=
  match findType b.typeId with
  | none => acc
  | some bType =>
    let area := bType.width * bType.depth
    let factor : ℚ := 10
    if bType.category = BuildingCategory.residential then
      (acc.1 + area * factor * (1 + bType.width * 0.5), acc.2)
    else if bType.category = BuildingCategory.commercial ∨
        bType.category = BuildingCategory.industrial ∨
        bType.category = BuildingCategory.office then
      (acc.1, acc.2 + area * factor * (1 + bType.width * 0.2))
    else acc

/-- `(Math.floor(newPop), Math.floor(newJobs))` after the forEach loop. -/
def recomputeStats (buildings : List PlacedBuilding) : ℤ × ℤ :=
  let acc := buildings.foldl statsStep (0, 0)
  (⌊acc.1⌋, ⌊acc.2⌋)

/-- Population as the spec words it: the sum over Residential structures of
`floor(area * 10 * (1 + width * 0.5))`. -/
def specPopulation (buildings : List PlacedBuilding) : ℤ :=
  (buildings.map fun b =>
    match findType b.typeId with
    | none => 0
    | some t =>
      if t.category = BuildingCategory.residential then
        ⌊t.width * t.depth * 10 * (1 + t.width * 0.5)⌋
      else 0).sum

/-- Jobs as the spec words it: the sum over Commercial, Industrial and Office
structures of `floor(area * 10 * (1 + width * 0.2))`. -/
def specJobs (buildings : List PlacedBuilding) : ℤ :=
  (buildings.map fun b =>
    match findType b.typeId with
    | none => 0
    | some t =>
      if t.category = BuildingCategory.commercial ∨
          t.category = BuildingCategory.industrial ∨
          t.category = BuildingCategory.office then
        ⌊t.width * t.depth * 10 * (1 + t.width * 0.2)⌋
      else 0).sum

/-! ## Structure-set mutation (App.tsx, `handlePlaceBuilding` /
`handleRemoveBuilding`) -/

/-- `handlePlaceBuilding`: the de-zone tool places nothing; otherwise the
building is appended with the currently active style variant. -/
def handlePlaceBuilding (buildings : List PlacedBuilding)
    (building : PlacedBuilding) (currentVariant : ℕ) : List PlacedBuilding :=
  if building.typeId == "tool_dezone" then buildings
  else buildings ++ [{ building with variant := some currentVariant }]

/-- `handleRemoveBuilding`: `buildings.filter(b => b.id !== id)`. -/
def handleRemoveBuilding (buildings : List PlacedBuilding) (id : String) :
    List PlacedBuilding :=
  buildings.filter fun b => b.id != id

/-! ## RCI demand tick (App.tsx, the interval effect) -/

structure RCI where
  res : ℚ
  com : ℚ
  ind : ℚ
  deriving DecidableEq

/-- The initial RCI triple of the `useState` initializer. -/
def initialRCI : RCI := { res := 100, com := 50, ind := 50 }

/-- `lerp`, the smoothing step `(a, b) => a + (b - a) * 0.05`. -/
def lerp (a b : ℚ) : ℚ := a + (b - a) * 0.05

/-- Target residential demand: `100` when the population is zero, else
`Math.min(100, Math.max(0, 50 + (jobs - population) * 0.1))`. -/
def targetRes (population jobs : ℤ) : ℚ :=
  if population > 0 then
    min 100 (max 0 (50 + ((jobs : ℚ) - (population : ℚ)) * 0.1))
  else 100

/-- `Math.min(100, Math.max(0, (population * 0.5 - jobs * 0.2) / 2))`. -/
def targetCom (population jobs : ℤ) : ℚ :=
  min 100 (max 0 (((population : ℚ) * 0.5 - (jobs : ℚ) * 0.2) / 2))

/-- `Math.min(100, Math.max(0, (population * 0.4 - jobs * 0.3) / 2))`. -/
def targetInd (population jobs : ℤ) : ℚ :=
  min 100 (max 0 (((population : ℚ) * 0.4 - (jobs : ℚ) * 0.3) / 2))

/-- The RCI part of one simulation tick: each component is smoothed toward
its clamped target. -/
def tickRCI (population jobs : ℤ) (rci : RCI) : RCI :=
  { res := lerp rci.res (targetRes population jobs)
    com := lerp rci.com (targetCom population jobs)
    ind := lerp rci.ind (targetInd population jobs) }

/-- RCI triples reachable in the app: the initial state, closed under the
demand tick (with arbitrary population/job counts, which over-approximates
the values the stats recompute can actually produce). -/
inductive ReachableRCI : RCI → Prop where
  | init : ReachableRCI initialRCI
  | tick (population jobs : ℤ) {r : RCI} :
      ReachableRCI r → ReachableRCI (tickRCI population jobs r)

/-- All three RCI components lie in `[0, 100]`. -/
def rciInBounds (r : RCI) : Prop :=
  0 ≤ r.res ∧ r.res ≤ 100 ∧ 0 ≤ r.com ∧ r.com ≤ 100 ∧ 0 ≤ r.ind ∧ r.ind ≤ 100

/-! ## Weather resample (App.tsx, the interval effect) -/

inductive Weather where
  | clear
  | rain
  | fog
  deriving DecidableEq

/-- The categorical draw: `roll < 0.5 → clear`, `roll < 0.8 → rain`,
else `fog`. -/
def resampleWeather (roll : ℚ) : Weather :=
  if roll < 0.5 then .clear
  else if roll < 0.8 then .rain
  else .fog

/-- The weather part of one tick: `doResample` stands for the
`Math.random() < 0.00033` gate; when it is false the weather is kept. -/
def tickWeather (doResample : Bool) (roll : ℚ) (prev : Weather) : Weather :=
  if doResample then resampleWeather roll else prev

/-! ## Clock advance (App.tsx, the interval effect) -/

/-- Truncation toward zero, as JavaScript's `%` uses. -/
def qtrunc (q : ℚ) : ℤ := if 0 ≤ q then ⌊q⌋ else ⌈q⌉

/-- JavaScript's remainder operator `a % n` (truncated division). -/
def jsMod (a n : ℚ) : ℚ := a - n * (qtrunc (a / n) : ℚ)

/-- `newTime = (prev.time + 0.008) % 24`. -/
def tickClock (t : ℚ) : ℚ := jsMod (t + 0.008) 24

/-! ## Click handling (GameCanvas.tsx, `handleClick`; App.tsx state) -/

/-- The slice of app state the click handler can mutate: funds, the placed
buildings, and the inspected-building id. -/
structure AppState where
  funds : ℚ
  buildings : List PlacedBuilding
  inspected : Option String
  deriving DecidableEq

/-- `onRemoveBuilding` as wired to App's `handleRemoveBuilding`, which also
clears a matching inspection. -/
def appRemoveBuilding (st : AppState) (id : String) : AppState :=
  { st with
    buildings := handleRemoveBuilding st.buildings id
    inspected := if st.inspected = some id then none else st.inspected }

/-- `handleClick`: demolish/de-zone removes the picked building; otherwise
with a visible ghost and an armed tool, a non-colliding, affordable
placement appends the new building (via `handlePlaceBuilding`) and debits
the cost, an unaffordable one only alerts; with no armed tool the click
inspects the picked building.  `picked` stands for the ray-cast result and
`newId` for the random id. -/
def handleClick (st : AppState) (isDemolishMode : Bool)
    (selectedBuildingId : Option String) (ghostVisible : Bool) (gx gz : ℚ)
    (picked : Option String) (newId : String) (currentVariant : ℕ) : AppState :=
  if isDemolishMode || selectedBuildingId == some "tool_dezone" then
    match picked with
    | some pid => appRemoveBuilding st pid
    | none => st
  else if ghostVisible && selectedBuildingId.isSome then
    match selectedBuildingId.bind findType with
    | none => st
    | some bType =>
      if checkCollision st.buildings gx gz bType.width bType.depth then st
      else if st.funds ≥ bType.cost then
        { st with
          funds := st.funds - bType.cost
          buildings := handlePlaceBuilding st.buildings
            { id := newId, typeId := selectedBuildingId.getD "", x := gx, z := gz
              rotation := 0, variant := none } currentVariant }
      else st
  else
    { st with inspected := picked }

/-! ## Sky and fog per render frame (GameCanvas.tsx, `animate`) -/

structure Color where
  r : ℚ
  g : ℚ
  b : ℚ
  deriving DecidableEq

/-- `THREE.Color.lerp(target, alpha)` componentwise. -/
def colorLerp (c target : Color) (alpha : ℚ) : Color :=
  { r := c.r + (target.r - c.r) * alpha
    g := c.g + (target.g - c.g) * alpha
    b := c.b + (target.b - c.b) * alpha }

/-- `COLORS.WATER = '#38bdf8'`, the day sky. -/
def waterColor : Color := { r := 0x38 / 255, g := 0xbd / 255, b := 0xf8 / 255 }

/-- `0x0a0a15`, the night sky. -/
def nightColor : Color := { r := 0x0a / 255, g := 0x0a / 255, b := 0x15 / 255 }

/-- `0xffaa77`, the dawn/dusk tint. -/
def dawnDuskColor : Color := { r := 0xff / 255, g := 0xaa / 255, b := 0x77 / 255 }

/-- `0x333344`, the stormy grey. -/
def stormColor : Color := { r := 0x33 / 255, g := 0x33 / 255, b := 0x44 / 255 }

/-- `0xcccccc`, the foggy white. -/
def fogGreyColor : Color := { r := 0xcc / 255, g := 0xcc / 255, b := 0xcc / 255 }

/-- The instantaneous `targetSky` of a frame: day color, replaced at night
or dawn/dusk, then blended 0.8 toward storm grey under rain or 0.9 toward
pale grey under fog. -/
def targetSkyColor (time : ℚ) (weather : Weather) : Color :=
  let isNight := time < 5 ∨ time > 19
  let isDawnDusk := (5 ≤ time ∧ time < 7) ∨ (17 < time ∧ time ≤ 19)
  let base := if isNight then nightColor else if isDawnDusk then dawnDuskColor else waterColor
  match weather with
  | .rain => colorLerp base stormColor 0.8
  | .fog => colorLerp base fogGreyColor 0.9
  | .clear => base

/-- Fog `near` target by weather (`baseNear = 600`). -/
def fogNearTarget (weather : Weather) : ℚ :=
  match weather with
  | .fog => 50
  | .rain => 300
  | .clear => 600

/-- Fog `far` target by weather (`baseFar = 2500`). -/
def fogFarTarget (weather : Weather) : ℚ :=
  match weather with
  | .fog => 900
  | .rain => 1500
  | .clear => 2500

/-- The displayed sky/fog state mutated by the render loop. -/
structure SkyFogState where
  background : Color
  fogColor : Color
  fogNear : ℚ
  fogFar : ℚ
  deriving DecidableEq

/-- One frame of `animate`'s sky/fog section: the scene background and fog
color are assigned the instantaneous target; the fog near/far planes are
smoothed toward their weather targets at rate 0.05. -/
def animateSkyFog (st : SkyFogState) (time : ℚ) (weather : Weather) : SkyFogState :=
  let targetSky := targetSkyColor time weather
  { background := targetSky
    fogColor := targetSky
    fogNear := st.fogNear + (fogNearTarget weather - st.fogNear) * 0.05
    fogFar := st.fogFar + (fogFarTarget weather - st.fogFar) * 0.05 }

/-- One rational lies strictly between two others. -/
def strictlyBetween (a x b : ℚ) : Prop := (a < x ∧ x < b) ∨ (b < x ∧ x < a)

/-- The record `createZone` produces for one size (named so the catalog can
be enumerated in proofs). -/
def zoneEntry (pfx nm : String) (category : BuildingCategory) (color : String)
    (baseCost baseHeight : ℚ) (size : ℕ) : BuildingType :=
  { id := pfx ++ "_" ++ toString size ++ "x" ++ toString size
    name := nm ++ " " ++ toString size ++ "x" ++ toString size
    category := category
    width := (size : ℚ)
    depth := (size : ℚ)
    height := baseHeight * (1 + (size : ℚ) * 0.5)
    color := color
    cost := baseCost * (size : ℚ) * (size : ℚ)
    description := toString size ++ "x" ++ toString size ++ " " ++ nm ++ " zone." }

/-! ## Shared helper lemmas -/

lemma smoothing_strictlyBetween {a b : ℚ} (h : a ≠ b) :
    strictlyBetween a (a + (b - a) * 0.05) b := by
  rcases lt_or_gt_of_ne h with hlt | hgt
  · exact Or.inl ⟨by nlinarith, by nlinarith⟩
  · exact Or.inr ⟨by nlinarith, by nlinarith⟩

lemma lerp_bounds {c t : ℚ} (hc0 : 0 ≤ c) (hc1 : c ≤ 100) (ht0 : 0 ≤ t)
    (ht1 : t ≤ 100) : 0 ≤ lerp c t ∧ lerp c t ≤ 100 := by
  unfold lerp
  exact ⟨by nlinarith, by nlinarith⟩

lemma targetRes_bounds (population jobs : ℤ) :
    0 ≤ targetRes population jobs ∧ targetRes population jobs ≤ 100 := by
  unfold targetRes
  split_ifs
  · exact ⟨le_min (by norm_num) (le_max_left 0 _), min_le_left _ _⟩
  · norm_num

lemma targetCom_bounds (population jobs : ℤ) :
    0 ≤ targetCom population jobs ∧ targetCom population jobs ≤ 100 :=
  ⟨le_min (by norm_num) (le_max_left 0 _), min_le_left _ _⟩

lemma targetInd_bounds (population jobs : ℤ) :
    0 ≤ targetInd population jobs ∧ targetInd population jobs ≤ 100 :=
  ⟨le_min (by norm_num) (le_max_left 0 _), min_le_left _ _⟩

lemma targetSkyColor_noon : targetSkyColor 12 Weather.clear = waterColor := by
  norm_num [targetSkyColor]

lemma findType_res1x1 : findType "res_1x1" = some res1x1 := by rfl

lemma res1x1_width : res1x1.width = 1 := by norm_num [res1x1]

lemma res1x1_depth : res1x1.depth = 1 := by norm_num [res1x1]

lemma not_outsideBounds_origin : ¬ outsideBounds 0 0 1 1 := by
  norm_num [outsideBounds, MAP_SIZE, GRID_SIZE, TILE_SIZE]

example : checkCollision [] 0 0 1 1 = false := by
  simp [checkCollision, not_outsideBounds_origin]

example : checkCollision [] 1000 0 1 1 = true := by
  have h : outsideBounds 1000 0 1 1 := by
    norm_num [outsideBounds, MAP_SIZE, GRID_SIZE, TILE_SIZE]
  simp [checkCollision, h]

example : checkCollision [⟨"a", "res_1x1", 0, 0, 0, none⟩] 0 0 1 1 = true := by
  simp [checkCollision, not_outsideBounds_origin, findType_res1x1]
  norm_num [openOverlap, buildingRect, candidateRect, res1x1, TILE_SIZE]

example : checkCollision [⟨"a", "res_1x1", 0, 0, 0, none⟩] 10 0 1 1 = false := by
  have h : ¬ outsideBounds 10 0 1 1 := by
    norm_num [outsideBounds, MAP_SIZE, GRID_SIZE, TILE_SIZE]
  simp [checkCollision, h, findType_res1x1]
  norm_num [openOverlap, buildingRect, candidateRect, res1x1, TILE_SIZE]

example : checkCollision [⟨"a", "nosuch", 0, 0, 0, none⟩] 0 0 1 1 = false := by
  have h : findType "nosuch" = none := by rfl
  simp [checkCollision, not_outsideBounds_origin, h]

lemma createZone_eq (pfx nm : String) (category : BuildingCategory)
    (color : String) (baseCost baseHeight : ℚ) :
    createZone pfx nm category color baseCost baseHeight =
      [zoneEntry pfx nm category color baseCost baseHeight 1,
       zoneEntry pfx nm category color baseCost baseHeight 2,
       zoneEntry pfx nm category color baseCost baseHeight 3,
       zoneEntry pfx nm category color baseCost baseHeight 4] := rfl

/-- Contributions of zone entries are integral rationals. -/
lemma zone_contrib_int (pfx nm : String) (category : BuildingCategory)
    (color : String) (baseCost baseHeight : ℚ) :
    ∀ t ∈ createZone pfx nm category color baseCost baseHeight,
      ((⌊t.width * t.depth * 10 * (1 + t.width * 0.5)⌋ : ℚ)
          = t.width * t.depth * 10 * (1 + t.width * 0.5)) ∧
      ((⌊t.width * t.depth * 10 * (1 + t.width * 0.2)⌋ : ℚ)
          = t.width * t.depth * 10 * (1 + t.width * 0.2)) := by
  intro t ht
  rw [createZone_eq] at ht
  simp only [List.mem_cons, List.not_mem_nil, or_false] at ht
  rcases ht with rfl | rfl | rfl | rfl <;> norm_num [zoneEntry]

/-- Every catalog entry's population and job contributions are integral
rationals (each width/depth is one of 1..4, producing whole numbers). -/
lemma mem_BUILDINGS_contrib_int : ∀ t ∈ BUILDINGS,
    ((⌊t.width * t.depth * 10 * (1 + t.width * 0.5)⌋ : ℚ)
        = t.width * t.depth * 10 * (1 + t.width * 0.5)) ∧
    ((⌊t.width * t.depth * 10 * (1 + t.width * 0.2)⌋ : ℚ)
        = t.width * t.depth * 10 * (1 + t.width * 0.2)) := by
  intro t ht
  unfold BUILDINGS at ht
  rcases List.mem_append.mp ht with h1 | h1
  swap
  · exact zone_contrib_int _ _ _ _ _ _ t h1
  rcases List.mem_append.mp h1 with h2 | h2
  swap
  · exact zone_contrib_int _ _ _ _ _ _ t h2
  rcases List.mem_append.mp h2 with h3 | h3
  swap
  · exact zone_contrib_int _ _ _ _ _ _ t h3
  rcases List.mem_append.mp h3 with h4 | h4
  swap
  · exact zone_contrib_int _ _ _ _ _ _ t h4
  rcases List.mem_append.mp h4 with h5 | h5
  swap
  · exact zone_contrib_int _ _ _ _ _ _ t h5
  rcases List.mem_append.mp h5 with h6 | h6
  swap
  · exact zone_contrib_int _ _ _ _ _ _ t h6
  simp only [List.mem_cons, List.not_mem_nil, or_false] at h6
  rcases h6 with rfl | rfl <;> norm_num

lemma statsStep_eq (acc : ℚ × ℚ) (b : PlacedBuilding) (t : BuildingType)
    (ht : findType b.typeId = some t) :
    statsStep acc b =
      if t.category = BuildingCategory.residential then
        (acc.1 + t.width * t.depth * 10 * (1 + t.width * 0.5), acc.2)
      else if t.category = BuildingCategory.commercial ∨
          t.category = BuildingCategory.industrial ∨
          t.category = BuildingCategory.office then
        (acc.1, acc.2 + t.width * t.depth * 10 * (1 + t.width * 0.2))
      else acc := by
  simp only [statsStep, ht]

/-- The forEach accumulation started at an integral pair stays integral and
tracks the per-structure floored sums. -/
lemma statsFold_int (bs : List PlacedBuilding)
    (h : ∀ b ∈ bs, (findType b.typeId).isSome) (p j : ℤ) :
    bs.foldl statsStep ((p : ℚ), (j : ℚ))
      = (((p + specPopulation bs : ℤ) : ℚ), ((j + specJobs bs : ℤ) : ℚ)) := by
  induction bs generalizing p j with
  | nil => simp [specPopulation, specJobs]
  | cons b bs ih =>
    obtain ⟨t, ht⟩ := Option.isSome_iff_exists.mp (h b (List.mem_cons_self b bs))
    have hmem : t ∈ BUILDINGS := List.mem_of_find?_eq_some ht
    obtain ⟨hpop, hjob⟩ := mem_BUILDINGS_contrib_int t hmem
    have htail : ∀ b' ∈ bs, (findType b'.typeId).isSome :=
      fun b' hb' => h b' (List.mem_cons_of_mem _ hb')
    rw [List.foldl_cons]
    by_cases hc1 : t.category = BuildingCategory.residential
    · have hstep : statsStep ((p : ℚ), (j : ℚ)) b
          = (((p + ⌊t.width * t.depth * 10 * (1 + t.width * 0.5)⌋ : ℤ) : ℚ), ((j : ℚ))) := by
        rw [statsStep_eq _ _ _ ht, if_pos hc1, Prod.mk.injEq]
        refine ⟨?_, rfl⟩
        push_cast
        rw [hpop]
      rw [hstep, ih htail]
      have hsp : specPopulation (b :: bs)
          = ⌊t.width * t.depth * 10 * (1 + t.width * 0.5)⌋ + specPopulation bs := by
        simp [specPopulation, ht, hc1]
      have hsj : specJobs (b :: bs) = specJobs bs := by
        simp [specJobs, ht, hc1]
      rw [hsp, hsj, Prod.mk.injEq]
      constructor
      · push_cast
        ring
      · rfl
    · by_cases hc2 : t.category = BuildingCategory.commercial ∨
          t.category = BuildingCategory.industrial ∨
          t.category = BuildingCategory.office
      · have hstep : statsStep ((p : ℚ), (j : ℚ)) b
            = (((p : ℚ)), ((j + ⌊t.width * t.depth * 10 * (1 + t.width * 0.2)⌋ : ℤ) : ℚ)) := by
          rw [statsStep_eq _ _ _ ht, if_neg hc1, if_pos hc2, Prod.mk.injEq]
          refine ⟨rfl, ?_⟩
          push_cast
          rw [hjob]
        rw [hstep, ih htail]
        have hsp : specPopulation (b :: bs) = specPopulation bs := by
          simp [specPopulation, ht, hc1]
        have hsj : specJobs (b :: bs)
            = ⌊t.width * t.depth * 10 * (1 + t.width * 0.2)⌋ + specJobs bs := by
          simp [specJobs, ht, hc2]
        rw [hsp, hsj, Prod.mk.injEq]
        constructor
        · rfl
        · push_cast
          ring
      · have hstep : statsStep ((p : ℚ), (j : ℚ)) b = ((p : ℚ), (j : ℚ)) := by
          rw [statsStep_eq _ _ _ ht, if_neg hc1, if_neg hc2]
        have hsp : specPopulation (b :: bs) = specPopulation bs := by
          simp [specPopulation, ht, hc1]
        have hsj : specJobs (b :: bs) = specJobs bs := by
          simp [specJobs, ht, hc2]
        rw [hstep, ih htail, hsp, hsj]

lemma qtrunc_of_nonneg {q : ℚ} (h : 0 ≤ q) : qtrunc q = ⌊q⌋ := if_pos h

/-- On nonnegative input, the JS remainder by 24 is `24 * fract (a / 24)`. -/
lemma jsMod_eq_fract {a : ℚ} (h : 0 ≤ a) :
    jsMod a 24 = 24 * Int.fract (a / 24) := by
  unfold jsMod
  rw [qtrunc_of_nonneg (div_nonneg h (by norm_num))]
  unfold Int.fract
  ring

/-- Closed form of iterated clock ticks from a clock value in `[0, 24)`. -/
lemma tickClock_iterate (t : ℚ) (h0 : 0 ≤ t) (h1 : t < 24) (n : ℕ) :
    tickClock^[n] t = 24 * Int.fract ((t + (n : ℚ) * 0.008) / 24) := by
  induction n with
  | zero =>
    rw [Function.iterate_zero, id_eq, Nat.cast_zero, zero_mul, add_zero]
    rw [Int.fract_eq_self.mpr ⟨div_nonneg h0 (by norm_num),
      (div_lt_one (by norm_num)).mpr h1⟩]
    ring
  | succ n ih =>
    rw [Function.iterate_succ_apply', ih]
    unfold tickClock
    have hx0 : (0 : ℚ) ≤ Int.fract ((t + (n : ℚ) * 0.008) / 24) := Int.fract_nonneg _
    rw [jsMod_eq_fract (by nlinarith)]
    have harg : (24 * Int.fract ((t + (n : ℚ) * 0.008) / 24) + 0.008) / 24
        = ((t + (n : ℚ) * 0.008) / 24 + 0.008 / 24)
            - (⌊(t + (n : ℚ) * 0.008) / 24⌋ : ℚ) := by
      unfold Int.fract
      ring
    rw [harg, Int.fract_sub_int]
    have harg2 : (t + (n : ℚ) * 0.008) / 24 + 0.008 / 24
        = (t + ((n + 1 : ℕ) : ℚ) * 0.008) / 24 := by
      push_cast
      ring
    rw [harg2]

/-! ## Claim theorems -/

/-- C5: one RCI smoothing step produces `c + (t - c) * 0.05`; it fixes the
value when `c = t`, and otherwise shrinks the distance to the target to
exactly 0.95 of its previous value, in particular strictly. -/
theorem lerp_smoothing_step (c t : ℚ) :
    lerp c t = c + (t - c) * 0.05 ∧
    (c = t → lerp c t = c) ∧
    (c ≠ t → |lerp c t - t| = 0.95 * |c - t| ∧ |lerp c t - t| < |c - t|) := by
  refine ⟨rfl, ?_, ?_⟩
  · rintro rfl
    unfold lerp
    ring
  · intro hne
    have h1 : lerp c t - t = (c - t) * 0.95 := by
      unfold lerp
      ring
    have h2 : |lerp c t - t| = 0.95 * |c - t| := by
      rw [h1, abs_mul, abs_of_nonneg (by norm_num : (0:ℚ) ≤ 0.95), mul_comm]
    have h3 : 0 < |c - t| := abs_pos.mpr (sub_ne_zero.mpr hne)
    exact ⟨h2, by rw [h2]; nlinarith⟩

theorem lerp_smoothing_step_witness :
    (3 : ℚ) ≠ 7 ∧
    (|lerp 3 7 - 7| = 0.95 * |(3 : ℚ) - 7| ∧ |lerp 3 7 - 7| < |(3 : ℚ) - 7|) :=
  ⟨by norm_num, (lerp_smoothing_step 3 7).2.2 (by norm_num)⟩

/-- C4 counterexample: a categorical draw of exactly 0.5 yields rain, not
clear — the code's boundary test is strict (`roll < 0.5 → clear`). -/
theorem weather_draw_half_counterexample :
    tickWeather true 0.5 Weather.clear = Weather.rain ∧
    Weather.rain ≠ Weather.clear := by
  constructor
  · norm_num [tickWeather, resampleWeather]
  · decide

/-- C4 (amended): on a resample tick the new weather is clear when the draw
is strictly below 0.5, rain when it is in `[0.5, 0.8)`, and fog when it is
at least 0.8 — a draw of exactly 0.5 yields rain; on ticks without a
resample the weather is unchanged. -/
theorem weather_resample_boundaries (r : ℚ) (prev : Weather) :
    (r < 0.5 → tickWeather true r prev = Weather.clear) ∧
    (0.5 ≤ r → r < 0.8 → tickWeather true r prev = Weather.rain) ∧
    (0.8 ≤ r → tickWeather true r prev = Weather.fog) ∧
    tickWeather false r prev = prev := by
  refine ⟨?_, ?_, ?_, rfl⟩
  · intro h
    simp [tickWeather, resampleWeather, h]
  · intro h1 h2
    simp [tickWeather, resampleWeather, not_lt.mpr h1, h2]
  · intro h
    have h5 : ¬ r < 0.5 := not_lt.mpr (le_trans (by norm_num) h)
    simp [tickWeather, resampleWeather, h5, not_lt.mpr h]

theorem weather_resample_boundaries_witness :
    ((0.5 : ℚ) ≤ 0.5 ∧ (0.5 : ℚ) < 0.8) ∧
    tickWeather true 0.5 Weather.fog = Weather.rain :=
  ⟨⟨le_refl _, by norm_num⟩,
    (weather_resample_boundaries 0.5 Weather.fog).2.1 (le_refl _) (by norm_num)⟩

/-- C6: every RCI triple reachable from the initial state through demand
ticks stays in `[0,100]` componentwise; the three tick targets are clamped
into `[0,100]`, and smoothing a value in `[0,100]` toward a target in
`[0,100]` stays in `[0,100]`. -/
theorem rci_demand_invariant :
    (∀ r, ReachableRCI r → rciInBounds r) ∧
    (∀ population jobs : ℤ,
      (0 ≤ targetRes population jobs ∧ targetRes population jobs ≤ 100) ∧
      (0 ≤ targetCom population jobs ∧ targetCom population jobs ≤ 100) ∧
      (0 ≤ targetInd population jobs ∧ targetInd population jobs ≤ 100)) ∧
    (∀ c t : ℚ, 0 ≤ c → c ≤ 100 → 0 ≤ t → t ≤ 100 →
      0 ≤ lerp c t ∧ lerp c t ≤ 100) := by
  refine ⟨?_, fun p j => ⟨targetRes_bounds p j, targetCom_bounds p j, targetInd_bounds p j⟩,
    fun c t hc0 hc1 ht0 ht1 => lerp_bounds hc0 hc1 ht0 ht1⟩
  intro r hr
  induction hr with
  | init => norm_num [rciInBounds, initialRCI]
  | tick p j hr ih =>
    obtain ⟨h1, h2, h3, h4, h5, h6⟩ := ih
    have hres := lerp_bounds h1 h2 (targetRes_bounds p j).1 (targetRes_bounds p j).2
    have hcom := lerp_bounds h3 h4 (targetCom_bounds p j).1 (targetCom_bounds p j).2
    have hind := lerp_bounds h5 h6 (targetInd_bounds p j).1 (targetInd_bounds p j).2
    exact ⟨hres.1, hres.2, hcom.1, hcom.2, hind.1, hind.2⟩

theorem rci_demand_invariant_witness :
    rciInBounds initialRCI ∧ (0 ≤ lerp 0 100 ∧ lerp 0 100 ≤ 100) :=
  ⟨rci_demand_invariant.1 initialRCI ReachableRCI.init,
    rci_demand_invariant.2.2 0 100 (by norm_num) (by norm_num) (by norm_num) (by norm_num)⟩

/-- C9 counterexample: a frame at noon in clear weather whose displayed
background differs from the target sets the background to the target
exactly — a direct assignment, not a value strictly between the previous
color and the target. -/
theorem sky_jump_cut_counterexample :
    (animateSkyFog ⟨⟨1, 1, 1⟩, ⟨1, 1, 1⟩, 600, 2500⟩ 12 Weather.clear).background
        = targetSkyColor 12 Weather.clear ∧
    (⟨1, 1, 1⟩ : Color) ≠ targetSkyColor 12 Weather.clear ∧
    ¬ strictlyBetween (1 : ℚ)
        (animateSkyFog ⟨⟨1, 1, 1⟩, ⟨1, 1, 1⟩, 600, 2500⟩ 12 Weather.clear).background.r
        (targetSkyColor 12 Weather.clear).r := by
  refine ⟨rfl, ?_, ?_⟩
  · rw [targetSkyColor_noon]
    intro h
    have := congrArg Color.r h
    norm_num [waterColor] at this
  · rw [show (animateSkyFog ⟨⟨1, 1, 1⟩, ⟨1, 1, 1⟩, 600, 2500⟩ 12 Weather.clear).background
        = targetSkyColor 12 Weather.clear from rfl, targetSkyColor_noon]
    norm_num [strictlyBetween, waterColor]

/-- C9 (amended): each frame assigns the displayed sky and fog colors
directly to the instantaneous blended target (a jump-cut); only the fog
near/far distances are exponentially smoothed toward their weather targets
at rate 0.05, landing strictly between the previous value and the target
whenever they differ. -/
theorem sky_fog_frame_update (st : SkyFogState) (time : ℚ) (w : Weather) :
    (animateSkyFog st time w).background = targetSkyColor time w ∧
    (animateSkyFog st time w).fogColor = targetSkyColor time w ∧
    (animateSkyFog st time w).fogNear
        = st.fogNear + (fogNearTarget w - st.fogNear) * 0.05 ∧
    (animateSkyFog st time w).fogFar
        = st.fogFar + (fogFarTarget w - st.fogFar) * 0.05 ∧
    (st.fogNear ≠ fogNearTarget w →
      strictlyBetween st.fogNear (animateSkyFog st time w).fogNear (fogNearTarget w)) ∧
    (st.fogFar ≠ fogFarTarget w →
      strictlyBetween st.fogFar (animateSkyFog st time w).fogFar (fogFarTarget w)) := by
  refine ⟨rfl, rfl, rfl, rfl, ?_, ?_⟩
  · intro h
    exact smoothing_strictlyBetween h
  · intro h
    exact smoothing_strictlyBetween h

/-- C3: when every placed structure's type resolves in the catalog, the
recomputed totals are the per-category floored sums — population over
Residential structures with density factor `1 + width * 0.5`, jobs over
Commercial/Industrial/Office with `1 + width * 0.2`, everything else
contributing nothing; a lone Residential 1×1 yields population 15, jobs 0. -/
theorem recompute_matches_spec (bs : List PlacedBuilding)
    (h : ∀ b ∈ bs, (findType b.typeId).isSome) :
    recomputeStats bs = (specPopulation bs, specJobs bs) ∧
    recomputeStats [⟨"b1", "res_1x1", 0, 0, 0, none⟩] = (15, 0) := by
  constructor
  · unfold recomputeStats
    have h0 : ((0 : ℚ), (0 : ℚ)) = (((0 : ℤ) : ℚ), ((0 : ℤ) : ℚ)) := by norm_num
    rw [h0, statsFold_int bs h 0 0]
    simp
  · unfold recomputeStats
    rw [List.foldl_cons, List.foldl_nil, statsStep_eq _ _ _ findType_res1x1]
    rw [if_pos (show res1x1.category = BuildingCategory.residential from rfl)]
    norm_num [res1x1]

theorem recompute_matches_spec_witness :
    (∀ b ∈ ([] : List PlacedBuilding), (findType b.typeId).isSome) ∧
    (recomputeStats [] = (specPopulation [], specJobs []) ∧
      recomputeStats [⟨"b1", "res_1x1", 0, 0, 0, none⟩] = (15, 0)) :=
  ⟨by simp, recompute_matches_spec [] (by simp)⟩

/-- C8 counterexample: placing a structure whose id duplicates an existing
structure's id and then removing that id removes both, so the recomputed
totals do not return to their prior values. -/
theorem place_remove_duplicate_id_counterexample :
    recomputeStats (handleRemoveBuilding
        (handlePlaceBuilding [⟨"a", "res_1x1", 0, 0, 0, none⟩]
          ⟨"a", "res_1x1", 10, 0, 0, none⟩ 0) "a")
      ≠ recomputeStats [⟨"a", "res_1x1", 0, 0, 0, none⟩] := by
  have h1 : (("res_1x1" : String) == "tool_dezone") = false := by decide
  have h2 : (("a" : String) != "a") = false := by decide
  have hL : handleRemoveBuilding
      (handlePlaceBuilding [⟨"a", "res_1x1", 0, 0, 0, none⟩]
        ⟨"a", "res_1x1", 10, 0, 0, none⟩ 0) "a" = [] := by
    simp [handlePlaceBuilding, handleRemoveBuilding, h1, h2, List.filter]
  have hR : recomputeStats [⟨"a", "res_1x1", 0, 0, 0, none⟩] = (15, 0) := by
    unfold recomputeStats
    rw [List.foldl_cons, List.foldl_nil, statsStep_eq _ _ _ findType_res1x1]
    rw [if_pos (show res1x1.category = BuildingCategory.residential from rfl)]
    norm_num [res1x1]
  have hE : recomputeStats [] = ((0 : ℤ), (0 : ℤ)) := by
    unfold recomputeStats
    norm_num
  rw [hL, hR, hE]
  intro hcontra
  have := congrArg Prod.fst hcontra
  norm_num at this

/-- C8 (amended): recomputation is a pure function of the structure set —
for any structure whose id is fresh with respect to the current set,
placing it and then removing its id returns the recomputed population and
job totals exactly to their prior values. -/
theorem place_remove_roundtrip (S : List PlacedBuilding) (b : PlacedBuilding)
    (v : ℕ) (hfresh : ∀ s ∈ S, s.id ≠ b.id) :
    recomputeStats (handleRemoveBuilding (handlePlaceBuilding S b v) b.id)
      = recomputeStats S := by
  have hfilter : S.filter (fun s => s.id != b.id) = S := by
    apply List.filter_eq_self.mpr
    intro s hs
    simpa using hfresh s hs
  unfold handlePlaceBuilding handleRemoveBuilding
  split_ifs with h
  · rw [hfilter]
  · rw [List.filter_append, hfilter]
    have hb : List.filter (fun s => s.id != b.id) [{ b with variant := some v }] = [] := by
      simp [List.filter]
    rw [hb, List.append_nil]

theorem place_remove_roundtrip_witness :
    (∀ s ∈ ([] : List PlacedBuilding), s.id ≠ "x") ∧
    recomputeStats (handleRemoveBuilding
        (handlePlaceBuilding [] ⟨"x", "road_local", 0, 0, 0, none⟩ 0) "x")
      = recomputeStats [] :=
  ⟨by simp, place_remove_roundtrip [] ⟨"x", "road_local", 0, 0, 0, none⟩ 0 (by simp)⟩

/-- C1: with every placed structure's type resolvable, the occupancy check
returns true exactly when the candidate rectangle extends past the grid
bounds or overlaps, under the open-interval test, the rectangle of some
existing structure; two adjacent 1×1 footprints whose centers are exactly
one tile size apart do not collide. -/
theorem checkCollision_characterization (bs : List PlacedBuilding) (x z w d : ℚ)
    (hres : ∀ b ∈ bs, (findType b.typeId).isSome) :
    (checkCollision bs x z w d = true ↔
      outsideBounds x z w d ∨
      ∃ b ∈ bs, ∃ t, findType b.typeId = some t ∧
        openOverlap (buildingRect b t) (candidateRect x z w d)) ∧
    (∀ (b : PlacedBuilding) (t : BuildingType), findType b.typeId = some t →
      t.width = 1 → t.depth = 1 → b.x = x + TILE_SIZE → b.z = z →
      ¬ outsideBounds x z 1 1 → checkCollision [b] x z 1 1 = false) := by
  constructor
  · by_cases hob : outsideBounds x z w d
    · simp only [checkCollision, if_pos hob]
      exact iff_of_true trivial (Or.inl hob)
    · simp only [checkCollision, if_neg hob]
      rw [List.any_eq_true]
      constructor
      · rintro ⟨b, hb, hfb⟩
        obtain ⟨t, ht⟩ := Option.isSome_iff_exists.mp (hres b hb)
        rw [ht] at hfb
        exact Or.inr ⟨b, hb, t, ht, of_decide_eq_true hfb⟩
      · rintro (hob2 | ⟨b, hb, t, ht, hov⟩)
        · exact absurd hob2 hob
        · exact ⟨b, hb, by rw [ht]; exact decide_eq_true hov⟩
  · intro b t ht hw hd hx hz hnb
    simp only [checkCollision, if_neg hnb, List.any_cons, List.any_nil, Bool.or_false]
    rw [ht]
    apply decide_eq_false
    intro hov
    obtain ⟨h1, -, -, -⟩ := hov
    rw [show (buildingRect b t).x1 = b.x - t.width * TILE_SIZE / 2 from rfl, hw, hx] at h1
    rw [show (candidateRect x z 1 1).x2 = x + 1 * TILE_SIZE / 2 from rfl] at h1
    norm_num [TILE_SIZE] at h1
    linarith

theorem checkCollision_characterization_witness :
    (∀ b ∈ ([] : List PlacedBuilding), (findType b.typeId).isSome) ∧
    ((checkCollision [] 0 0 1 1 = true ↔
      outsideBounds 0 0 1 1 ∨
      ∃ b ∈ ([] : List PlacedBuilding), ∃ t, findType b.typeId = some t ∧
        openOverlap (buildingRect b t) (candidateRect 0 0 1 1)) ∧
    (∀ (b : PlacedBuilding) (t : BuildingType), findType b.typeId = some t →
      t.width = 1 → t.depth = 1 → b.x = 0 + TILE_SIZE → b.z = 0 →
      ¬ outsideBounds 0 0 1 1 → checkCollision [b] 0 0 1 1 = false)) :=
  ⟨by simp, checkCollision_characterization [] 0 0 1 1 (by simp)⟩

/-- C10: placed structures whose type id does not resolve in the catalog
are skipped by the occupancy check — over a list of such structures, any
in-bounds candidate is reported free, wherever the structures sit. -/
theorem unknown_type_skipped_in_collision (bs : List PlacedBuilding) (x z w d : ℚ)
    (hunk : ∀ b ∈ bs, findType b.typeId = none)
    (hin : ¬ outsideBounds x z w d) :
    checkCollision bs x z w d = false := by
  simp only [checkCollision, if_neg hin]
  rw [Bool.eq_false_iff]
  intro h
  rw [List.any_eq_true] at h
  obtain ⟨b, hb, hfb⟩ := h
  rw [hunk b hb] at hfb
  exact Bool.false_ne_true hfb

theorem unknown_type_skipped_in_collision_witness :
    (∀ b ∈ [(⟨"u", "mystery_zone", 0, 0, 0, none⟩ : PlacedBuilding)],
      findType b.typeId = none) ∧
    ¬ outsideBounds 0 0 1 1 ∧
    checkCollision [⟨"u", "mystery_zone", 0, 0, 0, none⟩] 0 0 1 1 = false := by
  have h1 : ∀ b ∈ [(⟨"u", "mystery_zone", 0, 0, 0, none⟩ : PlacedBuilding)],
      findType b.typeId = none := by
    intro b hb
    rw [List.mem_singleton] at hb
    subst hb
    rfl
  exact ⟨h1, not_outsideBounds_origin,
    unknown_type_skipped_in_collision _ 0 0 1 1 h1 not_outsideBounds_origin⟩

/-- C2: a placement click whose armed type resolves: with funds below the
cost nothing is mutated; with sufficient funds and a collision-free spot
exactly one structure is appended and exactly the cost is debited; and
whatever the click's mode and parameters, nonnegative funds stay
nonnegative. -/
theorem commit_funds_invariant (st : AppState) (tid : String) (bType : BuildingType)
    (hfind : findType tid = some bType) (hdez : tid ≠ "tool_dezone")
    (gx gz : ℚ) (picked : Option String) (newId : String) (v : ℕ) :
    (st.funds < bType.cost →
      handleClick st false (some tid) true gx gz picked newId v = st) ∧
    (bType.cost ≤ st.funds →
      checkCollision st.buildings gx gz bType.width bType.depth = false →
      (handleClick st false (some tid) true gx gz picked newId v).buildings
          = st.buildings ++ [⟨newId, tid, gx, gz, 0, some v⟩] ∧
      (handleClick st false (some tid) true gx gz picked newId v).funds
          = st.funds - bType.cost) ∧
    (∀ (mode gv : Bool) (sel pk : Option String),
      0 ≤ st.funds → 0 ≤ (handleClick st mode sel gv gx gz pk newId v).funds) := by
  have hguard : ((some tid == some "tool_dezone") : Bool) = false := by
    rw [beq_eq_false_iff_ne]
    simpa using hdez
  have hdez2 : ((tid == "tool_dezone") : Bool) = false := by
    rwa [beq_eq_false_iff_ne]
  have hred : handleClick st false (some tid) true gx gz picked newId v =
      (if checkCollision st.buildings gx gz bType.width bType.depth = true then st
       else if st.funds ≥ bType.cost then
        { st with
          funds := st.funds - bType.cost
          buildings := handlePlaceBuilding st.buildings
            ⟨newId, tid, gx, gz, 0, none⟩ v }
       else st) := by
    simp [handleClick, hguard, hfind, Option.bind]
  refine ⟨?_, ?_, ?_⟩
  · intro hpoor
    rw [hred]
    split_ifs with h1 h2
    · rfl
    · exact absurd h2 (not_le.mpr hpoor)
    · rfl
  · intro hrich hfree
    rw [hred, if_neg (by rw [hfree]; exact Bool.false_ne_true), if_pos hrich]
    constructor
    · show handlePlaceBuilding st.buildings ⟨newId, tid, gx, gz, 0, none⟩ v = _
      simp [handlePlaceBuilding, hdez2]
    · rfl
  · intro mode gv sel pk h0
    unfold handleClick
    split
    · split
      · exact h0
      · exact h0
    · split
      · split
        · exact h0
        · split
          · exact h0
          · split
            · next h => exact sub_nonneg.mpr h
            · exact h0
      · exact h0

theorem commit_funds_invariant_witness :
    (findType "res_1x1" = some res1x1 ∧ "res_1x1" ≠ "tool_dezone") ∧
    ((AppState.funds ⟨50000, [], none⟩ < res1x1.cost →
      handleClick ⟨50000, [], none⟩ false (some "res_1x1") true 0 0 none "n1" 0
        = ⟨50000, [], none⟩) ∧
    (res1x1.cost ≤ AppState.funds ⟨50000, [], none⟩ →
      checkCollision [] 0 0 res1x1.width res1x1.depth = false →
      (handleClick ⟨50000, [], none⟩ false (some "res_1x1") true 0 0 none "n1" 0).buildings
          = [] ++ [⟨"n1", "res_1x1", 0, 0, 0, some 0⟩] ∧
      (handleClick ⟨50000, [], none⟩ false (some "res_1x1") true 0 0 none "n1" 0).funds
          = AppState.funds ⟨50000, [], none⟩ - res1x1.cost) ∧
    (∀ (mode gv : Bool) (sel pk : Option String),
      0 ≤ AppState.funds ⟨50000, [], none⟩ →
      0 ≤ (handleClick ⟨50000, [], none⟩ mode sel gv 0 0 pk "n1" 0).funds)) :=
  ⟨⟨findType_res1x1, by decide⟩,
    commit_funds_invariant ⟨50000, [], none⟩ "res_1x1" res1x1 findType_res1x1
      (by decide) 0 0 none "n1" 0⟩

/-- C7: from any clock value in `[0, 24)` one tick stays in `[0, 24)`; the
wrap is modular (3000 ticks of 0.008, summing to exactly 24, return the
clock to its original value) and a tick at 23.995 wraps to exactly 0.003. -/
theorem clock_tick_modular (t : ℚ) (h0 : 0 ≤ t) (h1 : t < 24) :
    (0 ≤ tickClock t ∧ tickClock t < 24) ∧
    tickClock^[3000] t = t ∧
    tickClock 23.995 = 0.003 := by
  refine ⟨?_, ?_, ?_⟩
  · rw [show tickClock t = jsMod (t + 0.008) 24 from rfl,
      jsMod_eq_fract (by linarith)]
    constructor
    · exact mul_nonneg (by norm_num) (Int.fract_nonneg _)
    · have h2 := Int.fract_lt_one ((t + 0.008) / 24)
      nlinarith
  · rw [tickClock_iterate t h0 h1 3000]
    have h3 : t + ((3000 : ℕ) : ℚ) * 0.008 = t + 24 := by
      norm_num
    rw [h3]
    have h4 : (t + 24) / 24 = t / 24 + ((1 : ℤ) : ℚ) := by
      push_cast
      ring
    rw [h4, Int.fract_add_int]
    rw [Int.fract_eq_self.mpr ⟨div_nonneg h0 (by norm_num),
      (div_lt_one (by norm_num)).mpr h1⟩]
    ring
  · rw [show tickClock 23.995 = jsMod (23.995 + 0.008) 24 from rfl,
      jsMod_eq_fract (by norm_num)]
    have h5 : (23.995 + 0.008 : ℚ) / 24 = 0.003 / 24 + ((1 : ℤ) : ℚ) := by
      norm_num
    rw [h5, Int.fract_add_int]
    rw [Int.fract_eq_self.mpr ⟨by norm_num, by norm_num⟩]
    norm_num

theorem clock_tick_modular_witness :
    ((0 : ℚ) ≤ 8 ∧ (8 : ℚ) < 24) ∧
    ((0 ≤ tickClock 8 ∧ tickClock 8 < 24) ∧
      tickClock^[3000] 8 = 8 ∧
      tickClock 23.995 = 0.003) :=
  ⟨⟨by norm_num, by norm_num⟩, clock_tick_modular 8 (by norm_num) (by norm_num)⟩

theorem sky_fog_frame_update_witness :
    (600 : ℚ) ≠ fogNearTarget Weather.fog ∧
    strictlyBetween 600
      (animateSkyFog ⟨⟨1, 1, 1⟩, ⟨1, 1, 1⟩, 600, 2500⟩ 0 Weather.fog).fogNear
      (fogNearTarget Weather.fog) :=
  ⟨by norm_num [fogNearTarget],
    (sky_fog_frame_update ⟨⟨1, 1, 1⟩, ⟨1, 1, 1⟩, 600, 2500⟩ 0 Weather.fog).2.2.2.2.1
      (by norm_num [fogNearTarget])⟩

end MetroBuilder
